import Mathlib

/-!
# Scrollinga: a shallow embedding of the scroll-lock engine

This development embeds the `Scrollinga` class (src/unnamed/part_000, the
variant of src/scrollinga.js with the pixel-density-aware `isScrollDown`)
into Lean and settles a list of behavioural claims about it.

Modelling decisions:
* DOM geometry (`scrollTop`, `scrollHeight`, `clientHeight`) and
  `window.devicePixelRatio` are rationals; `Math.floor` is `Int.floor`.
  The field for `window.devicePixelRatio` is called `pixelScale`; the JS
  fallback `window.devicePixelRatio || 1` is modelled by treating the value
  `0` as "unset" (falsy).
* The lock objects `{at, when}` built by the three `setScrollLock*` methods
  are represented by the tagged type `ScrollLock`; `lockAt` / `lockWhen`
  evaluate the closures that each constructor would have captured.
* Every engine routine that can assign `target.scrollTop` returns, next to
  the post-state, the list of scroll-offset writes it performed, each tagged
  with the assignment site that produced it (`rescroll` line 203, or the
  numeric-position branch of `setInitialScrollLock` line 31 - the only two
  `target.scrollTop = ...` statements in the source).
* Listener and observer registration is explicit state (`observerConnected`,
  `scrollListener`, `resizeListener`, `activeTimer`); environment-level
  dispatchers (`notifyScroll`, ...) deliver a notification only when the
  corresponding listener is attached.  `load` listeners attached to an image
  belong to the image, not to the engine's subscriptions, and are counted by
  `imgListeners` (each one is a distinct one-shot closure from
  `getImageLoadListener`).
* `close` returns the list of teardown actions it issues
  (observer disconnect, `clearInterval`, listener removals).
-/

/-- The scrollable target: the three geometry attributes the engine reads,
of which only `scrollTop` is ever written. -/
structure Target where
  scrollTop : ℚ
  scrollHeight : ℚ
  clientHeight : ℚ
  deriving DecidableEq, Repr

/-- Tagged form of the `{at, when}` lock objects installed by
`setScrollLockAtBottom`, `setScrollLockAtTop` and
`setScrollLockAtCurrentPosition`.  The `freeze` constructor carries the
`prevScrollHeight` captured when the lock was installed. -/
inductive ScrollLock where
  | bottom
  | top
  | freeze (prevScrollHeight : ℚ)
  deriving DecidableEq, Repr

/-- Which assignment site wrote `target.scrollTop`. -/
inductive WriteSrc where
  | rescrollW
  | initW
  deriving DecidableEq, Repr, BEq

/-- One write of the target's scroll offset: its source site and the value
assigned. -/
structure Write where
  src : WriteSrc
  value : ℚ
  deriving DecidableEq, Repr

/-- A teardown action issued by `close`. -/
inductive CloseAction where
  | disconnect
  | clearTimer (id : ℤ)
  | removeScrollL
  | removeResizeL
  deriving DecidableEq, Repr

/-- The whole observable state: the target, the browser environment the
engine reads (`pixelScale` models `window.devicePixelRatio`,
`hasMutationObserver` models `window.MutationObserver` being defined,
`activeTimer` the id of a live `setInterval` timer, if any), and the
engine's own fields (`scrollLock`, `rescrolling`, `interval`, `observer`)
together with which listeners are currently registered. -/
structure World where
  target : Target
  pixelScale : ℚ
  hasMutationObserver : Bool
  scrollLock : Option ScrollLock
  rescrolling : Bool
  interval : ℤ
  observer : Bool
  observerConnected : Bool
  scrollListener : Bool
  resizeListener : Bool
  activeTimer : Option ℤ
  imgListeners : ℕ
  deriving DecidableEq, Repr

/-- `const DEFAULT_INTERVAL_FALLBACK = 100`. -/
def DEFAULT_INTERVAL_FALLBACK : ℤ := 100

/-- `window.devicePixelRatio || 1`: the value `0` models an unset/falsy
`devicePixelRatio`. -/
def effPixelScale (w : World) : ℚ :=
  if w.pixelScale = 0 then 1 else w.pixelScale

/-- `isScrollDown` (lines 129-135): floor-scale both sides by the device
pixel ratio and compare the difference against the ratio. -/
def isScrollDown (w : World) : Bool :=
  let r := effPixelScale w
  let clientHeight : ℤ := Int.floor ((w.target.clientHeight + w.target.scrollTop) / r)
  let scrollHeight : ℤ := Int.floor (w.target.scrollHeight / r)
  decide (((scrollHeight - clientHeight : ℤ) : ℚ) < r)

/-- `isScrollUp` (lines 142-144): `this.target.scrollTop === 0`. -/
def isScrollUp (w : World) : Bool :=
  decide (w.target.scrollTop = 0)

/-- The `at()` closure of each lock: `target.scrollHeight` for the bottom
lock, `0` for the top lock, `target.scrollHeight - prevScrollHeight` for the
freeze-at-current lock. -/
def lockAt (l : ScrollLock) (t : Target) : ℚ :=
  match l with
  | .bottom => t.scrollHeight
  | .top => 0
  | .freeze prevScrollHeight => t.scrollHeight - prevScrollHeight

/-- The `when()` closure of each lock: `!isScrollDown()` for the bottom
lock, `!isScrollUp()` for the top lock, constantly `true` for the
freeze-at-current lock. -/
def lockWhen (l : ScrollLock) (w : World) : Bool :=
  match l with
  | .bottom => !isScrollDown w
  | .top => !isScrollUp w
  | .freeze _ => true

/-- `setScrollLock` (lines 79-81): `this.scrollLock = lock`. -/
def setScrollLock (l : Option ScrollLock) (w : World) : World :=
  { w with scrollLock := l }

/-- `removeScrollLock` (lines 149-151): `this.scrollLock = null`. -/
def removeScrollLock (w : World) : World :=
  { w with scrollLock := none }

/-- `isScrollLocked` (lines 158-160): `!!this.scrollLock`. -/
def isScrollLocked (w : World) : Bool :=
  w.scrollLock.isSome

/-- `shouldRescroll` (lines 167-169):
`this.isScrollLocked() && this.scrollLock.when()`. -/
def shouldRescroll (w : World) : Bool :=
  match w.scrollLock with
  | none => false
  | some l => lockWhen l w

/-- `rescroll` (lines 200-205): when `shouldRescroll()`, set the
`rescrolling` flag and assign `this.scrollLock.at()` to
`this.target.scrollTop` (the `rescrollW`-tagged write). -/
def rescroll (w : World) : World × List Write :=
  match w.scrollLock with
  | none => (w, [])
  | some l =>
    if lockWhen l w then
      let v := lockAt l w.target
      ({ w with rescrolling := true, target := { w.target with scrollTop := v } },
       [⟨.rescrollW, v⟩])
    else (w, [])

/-- `setScrollLockAtBottom` (lines 86-95): install the bottom lock, then
`rescroll`. -/
def setScrollLockAtBottom (w : World) : World × List Write :=
  rescroll (setScrollLock (some .bottom) w)

/-- `setScrollLockAtTop` (lines 100-109): install the top lock, then
`rescroll`. -/
def setScrollLockAtTop (w : World) : World × List Write :=
  rescroll (setScrollLock (some .top) w)

/-- `setScrollLockAtCurrentPosition` (lines 114-122): capture
`this.target.scrollHeight` and install the freeze-at-current lock; no
`rescroll` call. -/
def setScrollLockAtCurrentPosition (w : World) : World × List Write :=
  (setScrollLock (some (.freeze w.target.scrollHeight)) w, [])

/-- `onScroll` (lines 175-188): consume the `rescrolling` flag if set;
otherwise engage the bottom lock when scrolled down and unlocked, or drop
the lock when not scrolled down; finally clear the flag. -/
def onScroll (w : World) : World × List Write :=
  if w.rescrolling then ({ w with rescrolling := false }, [])
  else
    let p :=
      if isScrollDown w && !isScrollLocked w then setScrollLockAtBottom w
      else if !isScrollDown w then (removeScrollLock w, [])
      else (w, [])
    ({ p.1 with rescrolling := false }, p.2)

/-- `onResize` (lines 193-195): `this.rescroll()`. -/
def onResize (w : World) : World × List Write :=
  rescroll w

/-- `listenToImageLoad` (lines 261-263): attach one fresh one-shot `load`
listener (from `getImageLoadListener`) to the image. -/
def listenToImageLoad (w : World) : World :=
  { w with imgListeners := w.imgListeners + 1 }

/-- `addImageListeners` (lines 223-241): attach one listener per image node
found in the mutation batch's added nodes; `n` is that number of images. -/
def addImageListeners (n : ℕ) (w : World) : World :=
  match n with
  | 0 => w
  | n + 1 => addImageListeners n (listenToImageLoad w)

/-- `onMutation` (lines 213-216): `this.rescroll()` then
`this.addImageListeners(mutations)`. -/
def onMutation (n : ℕ) (w : World) : World × List Write :=
  let p := rescroll w
  (addImageListeners n p.1, p.2)

/-- Run `rescroll` `n` times in sequence, concatenating the writes. -/
def rescrollN (n : ℕ) (w : World) : World × List Write :=
  match n with
  | 0 => (w, [])
  | n + 1 =>
    let p := rescroll w
    let q := rescrollN n p.1
    (q.1, p.2 ++ q.2)

/-- Dispatch of a `load` event on the tracked image: every listener
attached by `getImageLoadListener` (lines 248-255) runs `this.rescroll()`
once and removes itself, so all current listeners fire and none survive.
This dispatch belongs to the image element and is independent of the
engine's own subscriptions. -/
def fireImageLoad (w : World) : World × List Write :=
  let p := rescrollN w.imgListeners w
  ({ p.1 with imgListeners := 0 }, p.2)

/-- The initial-position option: a number, `'top'`, `'bottom'`; `none` (or
any other value, folded into the `default` switch branch together with
`'bottom'`) selects the bottom lock. -/
inductive Pos where
  | num (q : ℚ)
  | top
  | bottom
  deriving DecidableEq, Repr

/-- `setInitialScrollLock` (lines 29-45): a numeric position is written
directly to `this.target.scrollTop` (the `initW`-tagged write, line 31);
`'top'` and `'bottom'`/default install the corresponding lock. -/
def setInitialScrollLock (position : Option Pos) (w : World) : World × List Write :=
  match position with
  | some (.num q) =>
    ({ w with target := { w.target with scrollTop := q } }, [⟨.initW, q⟩])
  | some .top => setScrollLockAtTop w
  | some .bottom => setScrollLockAtBottom w
  | none => setScrollLockAtBottom w

/-- `setupListeners` (lines 51-70): with `window.MutationObserver`, create
and connect the observer; otherwise overwrite `this.interval` with the
handle returned by `window.setInterval` (`h`, assumed the id of the timer
the environment starts).  In both cases add the `scroll` and `resize`
listeners. -/
def setupListeners (h : ℤ) (w : World) : World :=
  if w.hasMutationObserver then
    { w with observer := true, observerConnected := true,
             scrollListener := true, resizeListener := true }
  else
    { w with interval := h, activeTimer := some h,
             scrollListener := true, resizeListener := true }

/-- Constructor options: `options.position` and `options.interval`. -/
structure Options where
  position : Option Pos
  interval : Option ℤ
  deriving DecidableEq, Repr

/-- The constructor (lines 15-22): store the target and
`options.interval || DEFAULT_INTERVAL_FALLBACK` (a supplied `0` is falsy),
then `setInitialScrollLock`, `setupListeners`, and one final `rescroll`.
`h` is the timer handle `window.setInterval` would return in fallback
mode. -/
def scrollingaNew (opts : Options) (h : ℤ) (w : World) : World × List Write :=
  let w0 : World :=
    { w with interval :=
        match opts.interval with
        | some i => if i = 0 then DEFAULT_INTERVAL_FALLBACK else i
        | none => DEFAULT_INTERVAL_FALLBACK }
  let p1 := setInitialScrollLock opts.position w0
  let w2 := setupListeners h p1.1
  let p3 := rescroll w2
  (p3.1, p1.2 ++ p3.2)

/-- `close` (lines 268-279): disconnect the observer if one was created,
call `window.clearInterval(this.interval)` if `this.interval` is truthy
(the environment cancels the timer only when the id matches), and remove
the `scroll` and `resize` listeners. -/
def close (w : World) : World × List CloseAction :=
  let p1 : World × List CloseAction :=
    if w.observer then ({ w with observerConnected := false }, [.disconnect]) else (w, [])
  let p2 : World × List CloseAction :=
    if p1.1.interval ≠ 0 then
      ({ p1.1 with activeTimer :=
           if p1.1.activeTimer = some p1.1.interval then none else p1.1.activeTimer },
       p1.2 ++ [.clearTimer p1.1.interval])
    else p1
  ({ p2.1 with scrollListener := false, resizeListener := false },
   p2.2 ++ [.removeScrollL, .removeResizeL])

/-- Deliver a `scroll` event: reaches `onScroll` only while the scroll
listener is attached. -/
def notifyScroll (w : World) : World × List Write :=
  if w.scrollListener then onScroll w else (w, [])

/-- Deliver a `resize` event: reaches `onResize` only while the resize
listener is attached. -/
def notifyResize (w : World) : World × List Write :=
  if w.resizeListener then onResize w else (w, [])

/-- Deliver a mutation batch with `n` added images: reaches `onMutation`
only while the observer is connected. -/
def notifyMutation (n : ℕ) (w : World) : World × List Write :=
  if w.observerConnected then onMutation n w else (w, [])

/-- Deliver an image `load` event: the listeners live on the image, so this
fires regardless of the engine's own subscriptions. -/
def notifyImageLoad (w : World) : World × List Write :=
  fireImageLoad w

/-- One firing of the fallback poll timer: runs the registered
`this.rescroll` callback while the timer is live. -/
def tick (w : World) : World × List Write :=
  match w.activeTimer with
  | some _ => rescroll w
  | none => (w, [])

/-- The environment growing the content: `scrollHeight` increases by `d`,
nothing else changes. -/
def growContent (d : ℚ) (w : World) : World :=
  { w with target := { w.target with scrollHeight := w.target.scrollHeight + d } }

/-- `scrollHeight - (clientHeight + scrollTop)`, the distance to the
bottom edge. -/
def scrollDiff (w : World) : ℚ :=
  w.target.scrollHeight - (w.target.clientHeight + w.target.scrollTop)

/-- A generic state: only `target` and `pixelScale` are meaningful for the
pure predicates; the engine fields are at their pre-construction values. -/
def stateOf (t : Target) (ps : ℚ) : World :=
  { target := t
    pixelScale := ps
    hasMutationObserver := true
    scrollLock := none
    rescrolling := false
    interval := 0
    observer := false
    observerConnected := false
    scrollListener := false
    resizeListener := false
    activeTimer := none
    imgListeners := 0 }

/-- `rescroll` never changes the installed lock. -/
theorem rescroll_scrollLock (w : World) : (rescroll w).1.scrollLock = w.scrollLock := by
  unfold rescroll
  split
  · rfl
  · split <;> rfl

/-- Device pixel ratio 2, distance to bottom 3, even alignment: scaled
floors are 4 and 3, difference 1 < 2, so `isScrollDown` is true. -/
def cexDownTrue : World := stateOf ⟨0, 9, 6⟩ 2

/-- Device pixel ratio 2, distance to bottom 3, odd alignment: scaled
floors are 4 and 2, difference 2, not < 2, so `isScrollDown` is false. -/
def cexDownFalse : World := stateOf ⟨0, 8, 5⟩ 2

/-- C1 is false as stated: `cexDownTrue` and `cexDownFalse` have the same
device pixel ratio (2) and the same `scrollHeight - (clientHeight +
scrollTop)` (namely 3), yet `isScrollDown` answers true on one and false on
the other; hence no tolerance expressed in terms of the difference and the
ratio - one device pixel unit however scaled - can characterize
`isScrollDown` as "difference smaller than tolerance". -/
theorem C1_counterexample :
    isScrollDown cexDownTrue = true ∧ isScrollDown cexDownFalse = false ∧
      scrollDiff cexDownTrue = scrollDiff cexDownFalse ∧
      cexDownTrue.pixelScale = cexDownFalse.pixelScale ∧
      ¬ ∃ tol : ℚ → ℚ, ∀ w : World,
          (isScrollDown w = true ↔ scrollDiff w < tol w.pixelScale) := by
  have hT : isScrollDown cexDownTrue = true := by
    norm_num [isScrollDown, effPixelScale, cexDownTrue, stateOf]
  have hF : isScrollDown cexDownFalse = false := by
    norm_num [isScrollDown, effPixelScale, cexDownFalse, stateOf]
  have hd : scrollDiff cexDownTrue = scrollDiff cexDownFalse := by
    norm_num [scrollDiff, cexDownTrue, cexDownFalse, stateOf]
  have hp : cexDownTrue.pixelScale = cexDownFalse.pixelScale := rfl
  refine ⟨hT, hF, hd, hp, ?_⟩
  rintro ⟨tol, h⟩
  have hA : scrollDiff cexDownTrue < tol cexDownTrue.pixelScale := (h cexDownTrue).mp hT
  have hB : isScrollDown cexDownFalse = true := by
    refine (h cexDownFalse).mpr ?_
    rw [← hd, ← hp]
    exact hA
  rw [hF] at hB
  exact Bool.false_ne_true hB

/-- C1 (amended): `isScrollDown` floor-scales both sides by the effective
device pixel ratio `r` before comparing, i.e. it is true iff
`⌊scrollHeight/r⌋ - ⌊(clientHeight + scrollTop)/r⌋ < r`; for `r = 1` (or an
unset ratio) and integer geometry this reduces to
`scrollHeight - (clientHeight + scrollTop) < 1`, but for `r ≠ 1` the answer
is not a function of that difference alone. -/
theorem C1_theorem (w : World) (sT cH sH : ℤ) :
    (isScrollDown w =
      decide ((((Int.floor (w.target.scrollHeight / effPixelScale w) -
        Int.floor ((w.target.clientHeight + w.target.scrollTop) / effPixelScale w) : ℤ)) : ℚ)
          < effPixelScale w)) ∧
    (isScrollDown (stateOf ⟨(sT : ℚ), (sH : ℚ), (cH : ℚ)⟩ 1) =
      decide (sH - (cH + sT) < 1)) := by
  constructor
  · rfl
  · have hr : effPixelScale (stateOf ⟨(sT : ℚ), (sH : ℚ), (cH : ℚ)⟩ 1) = 1 := by
      unfold effPixelScale stateOf
      norm_num
    unfold isScrollDown
    rw [hr]
    simp only [stateOf, div_one]
    rw [show ((cH : ℚ) + (sT : ℚ)) = ((cH + sT : ℤ) : ℚ) by push_cast; ring]
    rw [Int.floor_intCast, Int.floor_intCast]
    rw [decide_eq_decide]
    constructor
    · intro h
      exact_mod_cast h
    · intro h
      exact_mod_cast h

/-- True when every write in the list was performed at the `rescroll`
assignment site. -/
def allRescrollSrc (l : List Write) : Bool :=
  l.all fun x => decide (x.src = WriteSrc.rescrollW)

/-- Every write `rescroll` performs is tagged with the `rescroll` site. -/
theorem allRescrollSrc_rescroll (w : World) : allRescrollSrc (rescroll w).2 = true := by
  unfold rescroll
  split
  · rfl
  · split <;> rfl

/-- Iterated `rescroll` performs only `rescroll`-site writes. -/
theorem allRescrollSrc_rescrollN (n : ℕ) (w : World) :
    allRescrollSrc (rescrollN n w).2 = true := by
  induction n generalizing w with
  | zero => rfl
  | succ n ih =>
    unfold rescrollN
    dsimp only
    rw [allRescrollSrc, List.all_append]
    rw [show ((rescroll w).2.all fun x => decide (x.src = WriteSrc.rescrollW)) =
      allRescrollSrc (rescroll w).2 from rfl]
    rw [show ((rescrollN n (rescroll w).1).2.all fun x => decide (x.src = WriteSrc.rescrollW)) =
      allRescrollSrc (rescrollN n (rescroll w).1).2 from rfl]
    rw [allRescrollSrc_rescroll, ih]
    rfl

/-- `onScroll` performs only `rescroll`-site writes. -/
theorem allRescrollSrc_onScroll (w : World) : allRescrollSrc (onScroll w).2 = true := by
  unfold onScroll
  split
  · rfl
  · dsimp only
    split
    · exact allRescrollSrc_rescroll (setScrollLock (some .bottom) w)
    · split <;> rfl

/-- The base state used by the concrete scenarios: a container of content
height 100, visible height 10, scrolled to offset 50, on a density-1
display with mutation observation available, before an engine is
attached. -/
def baseW : World := stateOf ⟨50, 100, 10⟩ 1

/-- C2 is false as stated: constructing the engine with the numeric
position option 5 writes the scroll offset (50 becomes 5) at the
`setInitialScrollLock` assignment site, which is not `rescroll`. -/
theorem C2_counterexample :
    (scrollingaNew ⟨some (.num 5), none⟩ 7 baseW).2 = [⟨WriteSrc.initW, 5⟩] ∧
    (scrollingaNew ⟨some (.num 5), none⟩ 7 baseW).1.target.scrollTop = 5 ∧
    baseW.target.scrollTop = 50 ∧
    allRescrollSrc (scrollingaNew ⟨some (.num 5), none⟩ 7 baseW).2 = false := by
  norm_num [scrollingaNew, setInitialScrollLock, setupListeners, rescroll, baseW, stateOf,
    DEFAULT_INTERVAL_FALLBACK, allRescrollSrc]
  decide

/-- C2 (amended): after construction the scroll offset is written only at
the `rescroll` site - every notification handler, lock operation and timer
firing produces exclusively `rescroll`-tagged writes (and
`setScrollLockAtCurrentPosition` writes nothing at all); the only
other write site, `setInitialScrollLock`'s numeric branch, runs once
during construction. -/
theorem C2_theorem (w : World) (n : ℕ) :
    allRescrollSrc (onScroll w).2 = true ∧
    allRescrollSrc (onResize w).2 = true ∧
    allRescrollSrc (onMutation n w).2 = true ∧
    allRescrollSrc (notifyScroll w).2 = true ∧
    allRescrollSrc (notifyResize w).2 = true ∧
    allRescrollSrc (notifyMutation n w).2 = true ∧
    allRescrollSrc (notifyImageLoad w).2 = true ∧
    allRescrollSrc (tick w).2 = true ∧
    allRescrollSrc (setScrollLockAtBottom w).2 = true ∧
    allRescrollSrc (setScrollLockAtTop w).2 = true ∧
    (setScrollLockAtCurrentPosition w).2 = [] := by
  refine ⟨allRescrollSrc_onScroll w, allRescrollSrc_rescroll w,
    allRescrollSrc_rescroll w, ?_, ?_, ?_, ?_, ?_,
    allRescrollSrc_rescroll (setScrollLock (some .bottom) w),
    allRescrollSrc_rescroll (setScrollLock (some .top) w), rfl⟩
  · unfold notifyScroll
    split
    · exact allRescrollSrc_onScroll w
    · rfl
  · unfold notifyResize
    split
    · exact allRescrollSrc_rescroll w
    · rfl
  · unfold notifyMutation
    split
    · exact allRescrollSrc_rescroll w
    · rfl
  · exact allRescrollSrc_rescrollN w.imgListeners w
  · unfold tick
    split
    · exact allRescrollSrc_rescroll w
    · rfl

/-- C3 is false as stated: with the container scrolled to offset 50 at
content height 100, `setScrollLockAtCurrentPosition` followed by a height
increase of 10 and a `rescroll` puts the offset at 10 = new height - locked
height, not at 60 = offset at lock time + 10. -/
theorem C3_counterexample :
    (setScrollLockAtCurrentPosition baseW).2 = [] ∧
    (rescroll (growContent 10 (setScrollLockAtCurrentPosition baseW).1)).1.target.scrollTop
      = 10 ∧
    baseW.target.scrollTop + 10 = 60 ∧ ¬ ((10 : ℚ) = 60) := by
  norm_num [setScrollLockAtCurrentPosition, setScrollLock, growContent, rescroll,
    lockWhen, lockAt, baseW, stateOf]

/-- C3 (amended): `setScrollLockAtCurrentPosition` performs no immediate
write, and after a content-height increase of `d` a `rescroll` sets the
scroll offset to exactly `d` (new height minus lock-time height); this
equals "advanced by `d` relative to its value at lock-set time" precisely
when the lock-time scroll offset was 0. -/
theorem C3_theorem (w : World) (d : ℚ) :
    (setScrollLockAtCurrentPosition w).2 = [] ∧
    (setScrollLockAtCurrentPosition w).1.target = w.target ∧
    (rescroll (growContent d (setScrollLockAtCurrentPosition w).1)).1.target.scrollTop = d ∧
    (w.target.scrollTop = 0 →
      (rescroll (growContent d (setScrollLockAtCurrentPosition w).1)).1.target.scrollTop =
        w.target.scrollTop + d) := by
  have key :
      (rescroll (growContent d (setScrollLockAtCurrentPosition w).1)).1.target.scrollTop
        = d := by
    simp [setScrollLockAtCurrentPosition, setScrollLock, growContent, rescroll,
      lockWhen, lockAt]
  exact ⟨rfl, rfl, key, fun h => by rw [key, h, zero_add]⟩

/-- Closed instance of the amended C3 at lock-time offset 0: the offset
advances by exactly the growth. -/
theorem C3_witness :
    (rescroll (growContent 10
        (setScrollLockAtCurrentPosition (stateOf ⟨0, 100, 10⟩ 1)).1)).1.target.scrollTop =
      (stateOf ⟨0, 100, 10⟩ 1).target.scrollTop + 10 :=
  (C3_theorem (stateOf ⟨0, 100, 10⟩ 1) 10).2.2.2 rfl

/-- The engine constructed on `baseW` with default options: mutation
observation is available, so it is an observer-mode engine, bottom-locked,
scrolled to the bottom (offset 100). -/
def wCons : World := (scrollingaNew ⟨none, none⟩ 7 baseW).1

/-- `wCons` after a mutation that added one image (attaching one load
listener), content growth by 20, and `close()`. -/
def wClosed : World := (close (growContent 20 (notifyMutation 1 wCons).1)).1

/-- C4 is false as stated: after `close()`, the load listener attached to
the image before teardown still fires `rescroll`, which writes the scroll
offset (100 becomes 120). -/
theorem C4_counterexample :
    (notifyImageLoad wClosed).2 = [⟨WriteSrc.rescrollW, 120⟩] ∧
    (notifyImageLoad wClosed).1.target.scrollTop = 120 ∧
    wClosed.target.scrollTop = 100 := by
  norm_num [wClosed, wCons, baseW, stateOf, scrollingaNew, setInitialScrollLock,
    setScrollLockAtBottom, setScrollLock, setupListeners, rescroll, lockWhen, lockAt,
    isScrollDown, effPixelScale, notifyMutation, onMutation, addImageListeners,
    listenToImageLoad, growContent, close, notifyImageLoad, fireImageLoad, rescrollN,
    DEFAULT_INTERVAL_FALLBACK]

/-- C4 (amended): after `close()` no scroll, resize, mutation or timer
notification produces an engine write (those listeners are detached), but
image-load listeners survive teardown (see `C4_counterexample`).  The
hypotheses say the pre-close state is consistent: a connected observer
implies one was created, and any live poll timer is the one whose handle
`close` will pass to `clearInterval`. -/
theorem C4_theorem (w : World)
    (hobs : w.observerConnected = true → w.observer = true)
    (htimer : w.activeTimer = none ∨ (w.activeTimer = some w.interval ∧ w.interval ≠ 0)) :
    (notifyScroll (close w).1).2 = [] ∧
    (notifyResize (close w).1).2 = [] ∧
    (∀ n, (notifyMutation n (close w).1).2 = []) ∧
    (tick (close w).1).2 = [] := by
  unfold notifyScroll notifyResize notifyMutation tick close
  cases hob : w.observer <;> rcases htimer with h | ⟨h1, h2⟩ <;>
    by_cases hi : w.interval = 0 <;>
    simp_all [hob, hi]

/-- Closed instance of the amended C4 on the pre-engine state `baseW`
(no observer connected, no timer running): every post-close notification
trace is empty. -/
theorem C4_witness :
    (notifyScroll (close baseW).1).2 = [] ∧
    (notifyResize (close baseW).1).2 = [] ∧
    (∀ n, (notifyMutation n (close baseW).1).2 = []) ∧
    (tick (close baseW).1).2 = [] :=
  C4_theorem baseW (by decide) (Or.inl (by decide))

/-- C5: on a scroll notification with the suppression flag clear, an
at-bottom unlocked state gets the bottom lock installed, a not-at-bottom
state gets any lock cleared, and `onScroll` never produces the top lock
unless it was already installed - reaching the top never auto-engages
top-lock. -/
theorem C5_theorem (w : World) :
    (w.rescrolling = false → isScrollDown w = true → isScrollLocked w = false →
      (onScroll w).1.scrollLock = some ScrollLock.bottom) ∧
    (w.rescrolling = false → isScrollDown w = false →
      (onScroll w).1.scrollLock = none) ∧
    ((onScroll w).1.scrollLock = some ScrollLock.top → w.scrollLock = some ScrollLock.top) := by
  refine ⟨?_, ?_, ?_⟩
  · intro hf hd hl
    simp [onScroll, hf, hd, hl, setScrollLockAtBottom, rescroll_scrollLock, setScrollLock]
  · intro hf hd
    simp [onScroll, hf, hd, removeScrollLock]
  · intro h
    cases hf : w.rescrolling with
    | true => simpa [onScroll, hf] using h
    | false =>
      cases hd : isScrollDown w with
      | true =>
        cases hl : isScrollLocked w with
        | true => simpa [onScroll, hf, hd, hl] using h
        | false =>
          simp [onScroll, hf, hd, hl, setScrollLockAtBottom, rescroll_scrollLock,
            setScrollLock] at h
      | false =>
        simp [onScroll, hf, hd, removeScrollLock] at h

/-- Closed instance of C5: a user scroll landing at the bottom of an
unlocked container installs the bottom lock. -/
theorem C5_witness :
    (onScroll (stateOf ⟨90, 100, 10⟩ 1)).1.scrollLock = some ScrollLock.bottom :=
  (C5_theorem (stateOf ⟨90, 100, 10⟩ 1)).1 rfl
    (by norm_num [isScrollDown, effPixelScale, stateOf]) rfl

/-- C6: the suppression flag is cleared unconditionally by the next scroll
notification whichever branch runs; `rescroll` raises it exactly when it
performs a write (otherwise the state, flag included, is untouched), so the
flag is true only between a programmatic write and the next consumed scroll
notification. -/
theorem C6_theorem (w : World) :
    (onScroll w).1.rescrolling = false ∧
    (rescroll w).1.rescrolling = (!(rescroll w).2.isEmpty || w.rescrolling) ∧
    ((rescroll w).2.isEmpty = true → (rescroll w).1 = w) := by
  refine ⟨?_, ?_, ?_⟩
  · unfold onScroll
    split
    · rfl
    · rfl
  · unfold rescroll
    split
    · simp
    · split
      · simp
      · simp
  · unfold rescroll
    split
    · intro _
      rfl
    · split
      · intro h
        simp at h
      · intro _
        rfl

/-- Closed instance of C6: a no-write `rescroll` (no lock installed) leaves
the state, suppression flag included, unchanged. -/
theorem C6_witness : (rescroll baseW).1 = baseW :=
  (C6_theorem baseW).2.2 rfl

/-- A bottom-locked container scrolled to the top (offset 0, content height
100, visible height 10): the viewport is not at the bottom. -/
def cexNotBottom : World :=
  { stateOf ⟨0, 100, 10⟩ 1 with scrollLock := some ScrollLock.bottom }

/-- C7 is false as stated: with the bottom lock active and the viewport not
at the bottom, `rescroll` DOES write - the lock's `when()` is
`!isScrollDown()`, which is true in that state, so the offset is forced to
the bottom (0 becomes 100). -/
theorem C7_counterexample :
    cexNotBottom.scrollLock = some ScrollLock.bottom ∧
    isScrollDown cexNotBottom = false ∧
    (rescroll cexNotBottom).2 = [⟨WriteSrc.rescrollW, 100⟩] ∧
    (rescroll cexNotBottom).1.target.scrollTop = 100 ∧
    cexNotBottom.target.scrollTop = 0 := by
  norm_num [cexNotBottom, stateOf, isScrollDown, effPixelScale, rescroll, lockWhen, lockAt]

/-- C7 (amended): with the bottom lock active, `rescroll` performs no write
exactly when the viewport IS at the bottom; when it is not at the bottom,
`rescroll` writes the content height to the scroll offset. -/
theorem C7_theorem (w : World) (hl : w.scrollLock = some ScrollLock.bottom) :
    (isScrollDown w = true → rescroll w = (w, [])) ∧
    (isScrollDown w = false →
      (rescroll w).1.target.scrollTop = w.target.scrollHeight ∧
      (rescroll w).2 = [⟨WriteSrc.rescrollW, w.target.scrollHeight⟩]) := by
  constructor
  · intro hd
    simp [rescroll, hl, lockWhen, hd]
  · intro hd
    simp [rescroll, hl, lockWhen, hd, lockAt]

/-- A bottom-locked container already scrolled to the bottom. -/
def atBottomW : World :=
  { stateOf ⟨90, 100, 10⟩ 1 with scrollLock := some ScrollLock.bottom }

/-- Closed instance of the amended C7: bottom-locked and at the bottom,
`rescroll` is a complete no-op. -/
theorem C7_witness : rescroll atBottomW = (atBottomW, []) :=
  (C7_theorem atBottomW rfl).1
    (by norm_num [isScrollDown, effPixelScale, atBottomW, stateOf])

/-- Unrolling of one iterated `rescroll`. -/
theorem rescrollN_one (w : World) : rescrollN 1 w = ((rescroll w).1, (rescroll w).2) := by
  have h : rescrollN 1 w = ((rescroll w).1, (rescroll w).2 ++ []) := rfl
  rw [h, List.append_nil]

/-- C8: a load notification runs every attached one-shot listener once and
detaches them all; starting from a state with no listeners, one image
addition (one attach) makes the next load event perform exactly one
`rescroll` call, and a second load event on the same element performs no
`rescroll` at all and leaves the state unchanged. -/
theorem C8_theorem (w : World) :
    (notifyImageLoad w).1.imgListeners = 0 ∧
    (w.imgListeners = 0 →
      (notifyImageLoad (listenToImageLoad w) =
        ({ (rescroll (listenToImageLoad w)).1 with imgListeners := 0 },
         (rescroll (listenToImageLoad w)).2)) ∧
      (notifyImageLoad (notifyImageLoad (listenToImageLoad w)).1).2 = [] ∧
      (notifyImageLoad (notifyImageLoad (listenToImageLoad w)).1).1 =
        (notifyImageLoad (listenToImageLoad w)).1) := by
  refine ⟨rfl, fun h => ⟨?_, rfl, rfl⟩⟩
  have h1 : (listenToImageLoad w).imgListeners = 1 := by
    simp [listenToImageLoad, h]
  show fireImageLoad (listenToImageLoad w) = _
  unfold fireImageLoad
  rw [h1, rescrollN_one]

/-- Closed instance of C8: after the one-shot listener fired once, a second
load notification triggers no further `rescroll`. -/
theorem C8_witness :
    (notifyImageLoad (notifyImageLoad (listenToImageLoad baseW)).1).2 = [] :=
  ((C8_theorem baseW).2 rfl).2.1

/-- C9 is false as stated: `wCons` is an observer-mode engine (a mutation
observer exists, no fallback timer was ever started), yet its `close` still
issues a timer cancellation - `this.interval` kept the poll period 100,
which is truthy, so `clearInterval(100)` is called. -/
theorem C9_counterexample :
    wCons.observer = true ∧ wCons.activeTimer = none ∧ wCons.interval = 100 ∧
    (close wCons).2 = [CloseAction.disconnect, CloseAction.clearTimer 100,
      CloseAction.removeScrollL, CloseAction.removeResizeL] := by
  norm_num [wCons, baseW, stateOf, scrollingaNew, setInitialScrollLock,
    setScrollLockAtBottom, setScrollLock, setupListeners, rescroll, lockWhen, lockAt,
    isScrollDown, effPixelScale, close, DEFAULT_INTERVAL_FALLBACK]

/-- C9 (amended): `close` disconnects the observer exactly when one was
created, removes the scroll and resize listeners, and issues a
`clearInterval` on the `interval` field whenever that field is nonzero -
in observer mode the field still holds the poll period, so an observer-mode
engine also issues a (spurious) timer cancellation; a fallback-mode engine
detaches no observer. -/
theorem C9_theorem (w : World) :
    (w.observer = true → CloseAction.disconnect ∈ (close w).2) ∧
    (w.observer = false → CloseAction.disconnect ∉ (close w).2) ∧
    (w.interval ≠ 0 → CloseAction.clearTimer w.interval ∈ (close w).2) ∧
    (w.interval = 0 → ∀ i, CloseAction.clearTimer i ∉ (close w).2) ∧
    CloseAction.removeScrollL ∈ (close w).2 ∧
    CloseAction.removeResizeL ∈ (close w).2 ∧
    (close w).1.scrollListener = false ∧
    (close w).1.resizeListener = false := by
  unfold close
  cases hob : w.observer <;> by_cases hi : w.interval = 0 <;> simp [hob, hi]

/-- Closed instance of the amended C9 on the observer-mode engine `wCons`:
`close` both disconnects the observer and issues the spurious
`clearInterval` on the stored poll period. -/
theorem C9_witness :
    CloseAction.disconnect ∈ (close wCons).2 ∧
    CloseAction.clearTimer wCons.interval ∈ (close wCons).2 := by
  constructor
  · refine (C9_theorem wCons).1 ?_
    norm_num [wCons, baseW, stateOf, scrollingaNew, setInitialScrollLock,
      setScrollLockAtBottom, setScrollLock, setupListeners, rescroll, lockWhen, lockAt,
      isScrollDown, effPixelScale]
  · refine (C9_theorem wCons).2.2.1 ?_
    norm_num [wCons, baseW, stateOf, scrollingaNew, setInitialScrollLock,
      setScrollLockAtBottom, setScrollLock, setupListeners, rescroll, lockWhen, lockAt,
      isScrollDown, effPixelScale, DEFAULT_INTERVAL_FALLBACK]

/-- C10: `setScrollLock` stores exactly the given lock, `isScrollLocked` is
true iff the stored lock is non-null, passing null coincides with
`removeScrollLock`, and with no lock installed `rescroll` is a no-op that
writes nothing. -/
theorem C10_theorem (w : World) (l : Option ScrollLock) :
    (setScrollLock l w).scrollLock = l ∧
    isScrollLocked (setScrollLock l w) = l.isSome ∧
    setScrollLock none w = removeScrollLock w ∧
    rescroll (removeScrollLock w) = (removeScrollLock w, []) :=
  ⟨rfl, rfl, rfl, rfl⟩
